import Mathlib

/-!
Verification development for the vps-email-automation repository.

Each Python function relevant to the spec claims is shallowly embedded as a
Lean definition: pure computations become Lean functions, stateful code
becomes explicit state passing, fallible remote calls become `Except`
parameters injected by the caller, and polling loops are modelled either as
timeout-indexed recursion (when the source loop is time-bounded) or as
fuel-indexed iteration counts (when the source loop is `while True`, so that
`none` means the loop has not exited within the given number of iterations).
-/

/-! Readiness waits (vps_orchestrator.py).

`wait_for_ssh(ip, timeout=300)` loops while `time.time() - start_time <
timeout`; each failed connection attempt sleeps 10 seconds; a successful
attempt returns `True`; falling out of the loop returns `False`.  We model
the wall clock by the elapsed seconds counter, advancing 10 seconds per
failed attempt, and return the final elapsed value together with the result.
-/

def wait_for_ssh (connect : Nat → Bool) (timeout : Nat) (elapsed : Nat) :
    Bool × Nat :=
  if h : elapsed < timeout then
    if connect elapsed then (true, elapsed)
    else wait_for_ssh connect timeout (elapsed + 10)
  else (false, elapsed)
termination_by timeout - elapsed
decreasing_by omega

/-- The `while True:` loop of `wait_for_cloud_init` exits only when the
remote `test -f /tmp/cloud-init-complete` probe prints `ready`.  The fuel
argument counts loop iterations; `none` means the loop is still running
after that many iterations (the source loop has no timeout). -/
def wait_for_cloud_init (ready : Nat → Bool) (iter : Nat) : Nat → Option Nat
  | 0 => none
  | fuel + 1 =>
    if ready iter then some iter
    else wait_for_cloud_init ready (iter + 1) fuel

/-- The `while True:` loop of `wait_for_droplet_ready` exits only when the
droplet reports active with a public address and the subsequent SSH wait
succeeds; `poll i` returns that address on iteration `i` in that case.
`none` means the loop is still running after `fuel` iterations (the source
loop has no timeout). -/
def wait_for_droplet_ready (poll : Nat → Option String) (iter : Nat) :
    Nat → Option String
  | 0 => none
  | fuel + 1 =>
    match poll iter with
    | some ip => some ip
    | none => wait_for_droplet_ready poll (iter + 1) fuel

/-- Termination of the cloud-init wait: the loop has exited within some
finite number of iterations. -/
def cloud_init_wait_terminates (ready : Nat → Bool) : Prop :=
  ∃ fuel, (wait_for_cloud_init ready 0 fuel).isSome

/-- Termination of the droplet-ready wait. -/
def droplet_wait_terminates (poll : Nat → Option String) : Prop :=
  ∃ fuel, (wait_for_droplet_ready poll 0 fuel).isSome

/-! Health monitor (monitor.py).

The health-check path of `run_health_check` reads a fully-populated
configuration dictionary (services, ports, thresholds, test accounts) and
runs the probes.  Each probe's own error is caught inside the probe function
and converted to a value (`False` for service/port/SMTP/IMAP probes,
`ssl_valid = False` for the certificate probe, `-1` for the mail-queue
probe, a dictionary missing the failed keys for the resource probe); the
probe outcomes are injected here as `ProbeData`. -/

structure Thresholds where
  disk_usage : Int
  memory_usage : Int
  load_average : ℚ
  queue_size : Int

structure MonitorConfig where
  services : List String
  ports : List Nat
  thresholds : Thresholds
  test_accounts : List String

structure ResourceSample where
  disk_usage : Option Int
  memory_usage : Option Int
  load_average : Option ℚ

structure ProbeData where
  serviceActive : String → Bool
  portOpen : Nat → Bool
  resources : ResourceSample
  mail_queue_raw : Except String Int
  ssl_valid : Bool
  smtpOk : String → Bool
  imapOk : String → Bool

/-- Embedding of `check_mail_queue`: the `postqueue -p` parse either yields a
count (the `try` body) or raises, in which case the `except` branch logs and
returns `-1`. -/
def check_mail_queue (raw : Except String Int) : Int :=
  match raw with
  | .ok n => n
  | .error _ => -1

inductive HealthStatus where
  | healthy
  | warning
  | critical
deriving DecidableEq, Repr

/-- Alert accumulation of `run_health_check`, in source order: inactive
services, unreachable ports, the three resource thresholds (missing resource
keys default to 0 via `resources.get(_, 0)`), the mail-queue threshold, SSL
validity, then the SMTP and IMAP login tests per configured account. -/
def run_health_check_alerts (cfg : MonitorConfig) (d : ProbeData) :
    List String :=
  (cfg.services.filter (fun s => !d.serviceActive s)).map
      (fun s => "Service " ++ s ++ " is not running")
  ++ (cfg.ports.filter (fun p => !d.portOpen p)).map
      (fun p => "Port " ++ toString p ++ " is not accessible")
  ++ (if d.resources.disk_usage.getD 0 > cfg.thresholds.disk_usage then
        ["High disk usage: " ++ toString (d.resources.disk_usage.getD 0) ++ "%"]
      else [])
  ++ (if d.resources.memory_usage.getD 0 > cfg.thresholds.memory_usage then
        ["High memory usage: " ++ toString (d.resources.memory_usage.getD 0) ++ "%"]
      else [])
  ++ (if d.resources.load_average.getD 0 > cfg.thresholds.load_average then
        ["High load average: " ++ toString (d.resources.load_average.getD 0)]
      else [])
  ++ (if check_mail_queue d.mail_queue_raw > cfg.thresholds.queue_size then
        ["Large mail queue: " ++ toString (check_mail_queue d.mail_queue_raw) ++ " messages"]
      else [])
  ++ (if !d.ssl_valid then ["SSL certificate issues detected"] else [])
  ++ (cfg.test_accounts.flatMap (fun a =>
        (if !d.smtpOk a then ["SMTP test failed for " ++ a] else [])
        ++ (if !d.imapOk a then ["IMAP test failed for " ++ a] else [])))

/-- Final classification of `run_health_check`: `overall_status` starts as
`healthy` and, when `self.alerts` is non-empty, becomes `warning` for at most
2 alerts and `critical` otherwise. -/
def overall_status (alerts : List String) : HealthStatus :=
  if alerts.isEmpty then .healthy
  else if alerts.length ≤ 2 then .warning
  else .critical

/-- Embedding of `run_health_check`: appends this check's alerts to whatever
`self.alerts` already holds and classifies the resulting list. -/
def run_health_check (cfg : MonitorConfig) (d : ProbeData)
    (prevAlerts : List String) : HealthStatus × List String :=
  let alerts := prevAlerts ++ run_health_check_alerts cfg d
  (overall_status alerts, alerts)

/-- One iteration of `run_continuous_monitoring`: `self.alerts = []` is
executed before `run_health_check`, so the check runs on an empty alert
list regardless of the previous cycle's alerts. -/
def monitoring_cycle (cfg : MonitorConfig) (d : ProbeData)
    (prevAlerts : List String) : HealthStatus × List String :=
  let _ := prevAlerts
  run_health_check cfg d []

/-- Embedding of `save_status_report`: the new report file is written, the
directory is globbed and sorted (file names embed the timestamp, modelled
here as `Nat`), and when more than 100 reports exist all but the last 100
are unlinked. -/
def save_status_report (existing : List Nat) (newTs : Nat) : List Nat :=
  let reports := List.insertionSort (· ≤ ·) (existing ++ [newTs])
  if reports.length > 100 then reports.drop (reports.length - 100)
  else reports

/-! Configuration loading (three components).

Each component has its own `load_config`.  The file is modelled as
`Option` of the parsed document (`none` = `FileNotFoundError`).  The result
records whether a default document was written to disk and whether the
process exits inside the load path. -/

/-- Result of a `load_config` call.  `missingFile wrote code` means the
file was absent: `wrote` records whether a default document was written to
disk, and `code = some c` means the process exits with status `c` right
there, while `code = none` means `load_config` returns and execution
continues in-process. -/
inductive LoadResult (α : Type) where
  | loaded : α → LoadResult α
  | missingFile : Bool → Option Nat → LoadResult α
deriving DecidableEq, Repr

/-- The claim's behaviour for a missing configuration file: a default
document is generated on disk and the process exits with a non-zero
status. -/
def missing_file_generates_and_exits {α : Type}
    (load : Option α → LoadResult α) : Prop :=
  ∃ code, code ≠ 0 ∧ load none = .missingFile true (some code)

structure OrchestratorConfig where
  domains : List String
  emails_per_domain : Nat
deriving DecidableEq, Repr

/-- Embedding of `VPSEmailOrchestrator.load_config`: a missing file runs
`create_default_config` (which writes the default document), prints a
message and calls `exit(1)`. -/
def orchestrator_load_config (file : Option OrchestratorConfig) :
    LoadResult OrchestratorConfig :=
  match file with
  | some c => .loaded c
  | none => .missingFile true (some 1)

structure EmailConfiguratorConfig where
  domains : List String
deriving DecidableEq, Repr

/-- Embedding of `EmailConfigurator.load_config`: a missing file runs
`create_default_config` (which writes the default document) and returns
`False`; `run()` then returns early and `main` falls through, so the
process exits normally (status 0) rather than non-zero. -/
def email_configurator_load_config (file : Option EmailConfiguratorConfig) :
    LoadResult EmailConfiguratorConfig :=
  match file with
  | some c => .loaded c
  | none => .missingFile true none

/-! The monitor's configuration document, with every key optional as in a
JSON file: a key the file omits is `none`.  The nested `thresholds` object
has its own optional keys. -/

structure ThresholdsFile where
  disk_usage : Option Int
  memory_usage : Option Int
  load_average : Option ℚ
  queue_size : Option Int
deriving DecidableEq, Repr

structure MonitorConfigFile where
  check_interval : Option Nat
  webhook_url : Option String
  alert_email : Option String
  thresholds : Option ThresholdsFile
  services : Option (List String)
  ports : Option (List Nat)
  test_accounts : Option (List String)
deriving DecidableEq, Repr

def default_thresholds_file : ThresholdsFile :=
  { disk_usage := some 90, memory_usage := some 90,
    load_average := some 5, queue_size := some 100 }

def default_monitor_config : MonitorConfigFile :=
  { check_interval := some 300, webhook_url := some "", alert_email := some "",
    thresholds := some default_thresholds_file,
    services := some ["postfix", "dovecot", "mysql", "nginx"],
    ports := some [25, 587, 993, 443, 80],
    test_accounts := some [] }

/-- The monitor's default merge: `for key, value in default_config.items():
if key not in config: config[key] = value`.  Only top-level keys are
merged; a top-level key present in the file is kept exactly as the file
has it, including a partially-filled nested `thresholds` object. -/
def merge_with_defaults (f : MonitorConfigFile) : MonitorConfigFile :=
  { check_interval := some (f.check_interval.getD 300),
    webhook_url := some (f.webhook_url.getD ""),
    alert_email := some (f.alert_email.getD ""),
    thresholds := some (f.thresholds.getD default_thresholds_file),
    services := some (f.services.getD ["postfix", "dovecot", "mysql", "nginx"]),
    ports := some (f.ports.getD [25, 587, 993, 443, 80]),
    test_accounts := some (f.test_accounts.getD []) }

/-- Embedding of `EmailServerMonitor.load_config`: a present file is merged
with the defaults key-by-key at top level; a missing file prints a message
and returns the in-memory default configuration — no default document is
written and the process continues. -/
def monitor_load_config (file : Option MonitorConfigFile) :
    LoadResult MonitorConfigFile :=
  match file with
  | some c => .loaded (merge_with_defaults c)
  | none => .loaded default_monitor_config

/-- The dictionary lookups `run_health_check` performs on the loaded
configuration: `config['services']`, `config['ports']`,
`config['thresholds']['disk_usage' | 'memory_usage' | 'load_average' |
'queue_size']`, and `config['test_accounts']`.  A `none` anywhere is a
`KeyError`. -/
def health_check_lookups_ok (c : MonitorConfigFile) : Bool :=
  c.services.isSome && c.ports.isSome && c.test_accounts.isSome &&
  (match c.thresholds with
   | none => false
   | some t =>
     t.disk_usage.isSome && t.memory_usage.isSome &&
     t.load_average.isSome && t.queue_size.isSome)

/-! DNS analyzer (email_configurator_enhanced.py). -/

structure MXRecord where
  priority : Int
  server : String
deriving DecidableEq, Repr

structure DNSConflict where
  conflictType : String
  description : String
  record : MXRecord
  solution : String
deriving DecidableEq, Repr

/-- Python's substring containment `pat in s`, on character lists. -/
def has_sub_aux (pat : List Char) : List Char → Bool
  | [] => pat.isEmpty
  | c :: rest => pat.isPrefixOf (c :: rest) || has_sub_aux pat rest

/-- Python's `pat in s` for strings. -/
def py_in (pat s : String) : Bool :=
  has_sub_aux pat.data s.data

/-- Embedding of `DNSManager.check_conflicts`: three independent rule
passes over the current MX records, in source order (OVH MX Plan, Google
Workspace, Microsoft 365), each appending one conflict per matching
record. -/
def check_conflicts (current_mx : List MXRecord) : List DNSConflict :=
  (current_mx.filter (fun mx => py_in "mail.ovh.net" mx.server)).map
    (fun mx =>
      { conflictType := "ovh_mx_plan",
        description := "OVH MX Plan service detected",
        record := mx,
        solution := "Delete OVH MX records or suspend MX Plan service" })
  ++ (current_mx.filter (fun mx =>
        py_in "google.com" mx.server || py_in "googlemail.com" mx.server)).map
    (fun mx =>
      { conflictType := "google_workspace",
        description := "Google Workspace detected",
        record := mx,
        solution := "Disable Google Workspace or use subdomain" })
  ++ (current_mx.filter (fun mx =>
        py_in "outlook.com" mx.server ||
        py_in "protection.outlook.com" mx.server)).map
    (fun mx =>
      { conflictType := "microsoft_365",
        description := "Microsoft 365 detected",
        record := mx,
        solution := "Disable Microsoft 365 or use subdomain" })

/-- Embedding of `DNSManager.has_conflicts`: `len(self.conflicts) > 0`. -/
def has_conflicts (conflicts : List DNSConflict) : Bool :=
  decide (conflicts.length > 0)

structure DNSAnalysis where
  mx_records : List MXRecord
  dns_provider : String
  conflicts : List DNSConflict
  needs_configuration : Bool
deriving DecidableEq, Repr

/-- Embedding of `DNSManager.analyze_dns`: the fetched MX records and the
fingerprinted provider are stored, `check_conflicts` fills the conflict
list, and `needs_configuration` is `len(self.current_mx) == 0 or
self.has_conflicts()`. -/
def analyze_dns (current_mx : List MXRecord) (provider : String) :
    DNSAnalysis :=
  let conflicts := check_conflicts current_mx
  { mx_records := current_mx,
    dns_provider := provider,
    conflicts := conflicts,
    needs_configuration :=
      decide (current_mx.length = 0) || has_conflicts conflicts }

/-- A single MX record matches some conflict signature of the rule
table. -/
def matches_conflict_signature (mx : MXRecord) : Bool :=
  py_in "mail.ovh.net" mx.server ||
  (py_in "google.com" mx.server || py_in "googlemail.com" mx.server) ||
  (py_in "outlook.com" mx.server || py_in "protection.outlook.com" mx.server)

/-! Deployment pipeline (vps_orchestrator.py).

`run_full_automation` runs the stages sequentially inside a single
`try/except/finally`.  Remote and provider calls are injected as `Except`
outcomes: `.error e` models the call raising an exception, which — since no
stage has a local handler — propagates to the `except` branch of
`run_full_automation`.  The `finally` branch runs `cleanup_ssh`. -/

structure MailAccount where
  email : String
  domain : String
deriving DecidableEq, Repr

structure PipelineEnv where
  domains : List String
  emails_per_domain : Nat
  provision_result : Except String String
  dns_result : Except String Unit
  connect_result : Except String Unit
  cloud_init_result : Except String Unit
  postfix_result : Except String Unit
  dovecot_result : Except String Unit
  ssl_result : Except String Unit
  db_result : Except String Unit
  account_result : Nat → Except String MailAccount
  tests_result : Except String (List String)
  report_result : Except String String

/-- Embedding of `setup_mail_server`: `connect_ssh`, `wait_for_cloud_init`,
`configure_postfix`, `configure_dovecot`, `setup_ssl_certificates` and
`create_mail_database_structure` run in order with no local exception
handler, so the first raising action aborts the stage. -/
def setup_mail_server (env : PipelineEnv) : Except String Unit :=
  match env.connect_result with
  | .error e => .error e
  | .ok _ =>
    match env.cloud_init_result with
    | .error e => .error e
    | .ok _ =>
      match env.postfix_result with
      | .error e => .error e
      | .ok _ =>
        match env.dovecot_result with
        | .error e => .error e
        | .ok _ =>
          match env.ssl_result with
          | .error e => .error e
          | .ok _ => env.db_result

/-- The inner `for i in range(emails_per_domain)` loop of
`create_email_accounts`: each iteration calls
`create_single_email_account` (modelled by `create` at the global call
index) and appends the account; an exception stops everything and leaves
the accounts appended so far. -/
def create_accounts_for_domain (create : Nat → Except String MailAccount)
    (idx : Nat) (count : Nat) (acc : List MailAccount) :
    List MailAccount × Nat × Option String :=
  match count with
  | 0 => (acc, idx, none)
  | n + 1 =>
    match create idx with
    | .error e => (acc, idx, some e)
    | .ok a => create_accounts_for_domain create (idx + 1) n (acc ++ [a])

/-- The outer `for domain in self.config['domains']` loop of
`create_email_accounts`. -/
def create_email_accounts_go (create : Nat → Except String MailAccount)
    (domains : List String) (per : Nat) (idx : Nat)
    (acc : List MailAccount) : List MailAccount × Nat × Option String :=
  match domains with
  | [] => (acc, idx, none)
  | _d :: rest =>
    match create_accounts_for_domain create idx per acc with
    | (acc2, idx2, some e) => (acc2, idx2, some e)
    | (acc2, idx2, none) =>
      create_email_accounts_go create rest per idx2 acc2

/-- Embedding of `create_email_accounts`: returns the accumulated
`self.email_accounts` list, the number of creation calls made, and the
first exception if one was raised. -/
def create_email_accounts (create : Nat → Except String MailAccount)
    (domains : List String) (per : Nat) :
    List MailAccount × Nat × Option String :=
  create_email_accounts_go create domains per 0 []

structure RunOutcome where
  success : Bool
  error : Option String
  vps_ip : Option String
  email_accounts : List MailAccount
  report_generated : Bool
  ssh_open : Bool
deriving DecidableEq, Repr

/-- Embedding of `run_full_automation`.  The `try` body runs the stages in
order; the first exception jumps to the `except` branch, which records the
error and returns `success = False`; in either case the `finally` branch
runs `cleanup_ssh`, closing the SSH client if one was created
(`connect_ssh` creates the client object before connecting, so the client
exists even when the connect call itself raises). -/
def run_full_automation (env : PipelineEnv) : RunOutcome :=
  let st0 : RunOutcome :=
    { success := false, error := none, vps_ip := none, email_accounts := [],
      report_generated := false, ssh_open := false }
  let bodyResult : RunOutcome :=
    match env.provision_result with
    | .error e => { st0 with error := some e }
    | .ok ip =>
      let st1 := { st0 with vps_ip := some ip }
      match env.dns_result with
      | .error e => { st1 with error := some e }
      | .ok _ =>
        let st2 := { st1 with ssh_open := true }
        match setup_mail_server env with
        | .error e => { st2 with error := some e }
        | .ok _ =>
          match create_email_accounts env.account_result env.domains
              env.emails_per_domain with
          | (accts, _, some e) =>
            { st2 with email_accounts := accts, error := some e }
          | (accts, _, none) =>
            let st3 := { st2 with email_accounts := accts }
            match env.tests_result with
            | .error e => { st3 with error := some e }
            | .ok _ =>
              match env.report_result with
              | .error e => { st3 with error := some e }
              | .ok _ => { st3 with success := true, report_generated := true }
  { bodyResult with ssh_open := false }

lemma create_accounts_for_domain_ok (create : Nat → Except String MailAccount) :
    ∀ (count idx : Nat) (acc : List MailAccount),
      (∀ i, i < count → ∃ a, create (idx + i) = .ok a) →
      ∃ as, create_accounts_for_domain create idx count acc =
        (acc ++ as, idx + count, none) ∧ as.length = count := by
  intro count
  induction count with
  | zero =>
    intro idx acc _
    exact ⟨[], by simp [create_accounts_for_domain], rfl⟩
  | succ n ih =>
    intro idx acc h
    obtain ⟨a, ha⟩ := h 0 (Nat.succ_pos n)
    rw [Nat.add_zero] at ha
    obtain ⟨as, heq, hlen⟩ := ih (idx + 1) (acc ++ [a]) (by
      intro i hi
      have := h (i + 1) (by omega)
      rwa [show idx + (i + 1) = idx + 1 + i by omega] at this)
    refine ⟨a :: as, ?_, by simp [hlen]⟩
    simp only [create_accounts_for_domain, ha]
    rw [heq]
    simp only [Prod.mk.injEq, List.append_assoc, List.singleton_append,
      Nat.succ_mul, List.length_cons, true_and, and_true]
    all_goals omega

lemma create_accounts_for_domain_err (create : Nat → Except String MailAccount)
    (e : String) :
    ∀ (count k idx : Nat) (acc : List MailAccount),
      k < count →
      (∀ i, i < k → ∃ a, create (idx + i) = .ok a) →
      create (idx + k) = .error e →
      ∃ as, create_accounts_for_domain create idx count acc =
        (acc ++ as, idx + k, some e) ∧ as.length = k := by
  intro count
  induction count with
  | zero => intro k idx acc hk; omega
  | succ n ih =>
    intro k idx acc hk hok herr
    match k with
    | 0 =>
      rw [Nat.add_zero] at herr
      exact ⟨[], by simp [create_accounts_for_domain, herr], rfl⟩
    | j + 1 =>
      obtain ⟨a, ha⟩ := hok 0 (Nat.succ_pos j)
      rw [Nat.add_zero] at ha
      obtain ⟨as, heq, hlen⟩ := ih j (idx + 1) (acc ++ [a]) (by omega)
        (by
          intro i hi
          have := hok (i + 1) (by omega)
          rwa [show idx + (i + 1) = idx + 1 + i by omega] at this)
        (by rwa [show idx + 1 + j = idx + (j + 1) by omega])
      refine ⟨a :: as, ?_, by simp [hlen]⟩
      simp only [create_accounts_for_domain, ha]
      rw [heq]
      simp only [Prod.mk.injEq, List.append_assoc, List.singleton_append,
        Nat.succ_mul, List.length_cons, true_and, and_true]
      all_goals omega

lemma create_email_accounts_go_ok (create : Nat → Except String MailAccount)
    (per : Nat) :
    ∀ (domains : List String) (idx : Nat) (acc : List MailAccount),
      (∀ i, i < domains.length * per → ∃ a, create (idx + i) = .ok a) →
      ∃ as, create_email_accounts_go create domains per idx acc =
        (acc ++ as, idx + domains.length * per, none) ∧
        as.length = domains.length * per := by
  intro domains
  induction domains with
  | nil =>
    intro idx acc _
    exact ⟨[], by simp [create_email_accounts_go], by simp⟩
  | cons d rest ih =>
    intro idx acc h
    have hmul : (d :: rest).length * per = per + rest.length * per := by
      simp [Nat.succ_mul]; omega
    obtain ⟨as₁, heq₁, hlen₁⟩ := create_accounts_for_domain_ok create per idx acc
      (by intro i hi; exact h i (by omega))
    obtain ⟨as₂, heq₂, hlen₂⟩ := ih (idx + per) (acc ++ as₁) (by
      intro i hi
      have := h (per + i) (by omega)
      rwa [show idx + (per + i) = idx + per + i by omega] at this)
    refine ⟨as₁ ++ as₂, ?_,
      by simp only [List.length_append, hlen₁, hlen₂, List.length_cons,
        Nat.succ_mul]; omega⟩
    simp only [create_email_accounts_go, heq₁]
    rw [heq₂]
    simp only [Prod.mk.injEq, List.append_assoc, List.singleton_append,
      Nat.succ_mul, List.length_cons, true_and, and_true]
    all_goals omega

lemma create_email_accounts_go_err (create : Nat → Except String MailAccount)
    (per : Nat) (e : String) :
    ∀ (domains : List String) (k idx : Nat) (acc : List MailAccount),
      k < domains.length * per →
      (∀ i, i < k → ∃ a, create (idx + i) = .ok a) →
      create (idx + k) = .error e →
      ∃ as, create_email_accounts_go create domains per idx acc =
        (acc ++ as, idx + k, some e) ∧ as.length = k := by
  intro domains
  induction domains with
  | nil => intro k idx acc hk; simp at hk
  | cons d rest ih =>
    intro k idx acc hk hok herr
    by_cases hkp : k < per
    · obtain ⟨as, heq, hlen⟩ :=
        create_accounts_for_domain_err create e per k idx acc hkp hok herr
      exact ⟨as, by simp only [create_email_accounts_go, heq], hlen⟩
    · push_neg at hkp
      obtain ⟨as₁, heq₁, hlen₁⟩ := create_accounts_for_domain_ok create per idx
        acc (by intro i hi; exact hok i (by omega))
      obtain ⟨as₂, heq₂, hlen₂⟩ := ih (k - per) (idx + per) (acc ++ as₁)
        (by
          have : (d :: rest).length * per = per + rest.length * per := by
            simp [Nat.succ_mul]; omega
          omega)
        (by
          intro i hi
          have := hok (per + i) (by omega)
          rwa [show idx + (per + i) = idx + per + i by omega] at this)
        (by rwa [show idx + per + (k - per) = idx + k by omega])
      refine ⟨as₁ ++ as₂, ?_,
        by simp only [List.length_append, hlen₁, hlen₂]; omega⟩
      simp only [create_email_accounts_go, heq₁]
      rw [heq₂]
      simp only [Prod.mk.injEq, List.append_assoc, List.singleton_append,
        Nat.succ_mul, List.length_cons, true_and, and_true]
      all_goals omega

/-! Concrete inputs used by witnesses and counterexamples. -/

/-- The monitor's built-in default configuration, as the dictionary in
`load_config`, restricted to the keys `run_health_check` reads. -/
def monitor_config_defaults : MonitorConfig :=
  { services := ["postfix", "dovecot", "mysql", "nginx"],
    ports := [25, 587, 993, 443, 80],
    thresholds :=
      { disk_usage := 90, memory_usage := 90, load_average := 5,
        queue_size := 100 },
    test_accounts := [] }

/-- A cycle in which every probe is healthy except that the mail-queue
probe itself raises. -/
def probe_all_ok_queue_error : ProbeData :=
  { serviceActive := fun _ => true, portOpen := fun _ => true,
    resources :=
      { disk_usage := some 10, memory_usage := some 20,
        load_average := some 1 },
    mail_queue_raw := .error "postqueue timed out",
    ssl_valid := true, smtpOk := fun _ => true, imapOk := fun _ => true }

/-- The same cycle but with a genuine queue-depth threshold breach. -/
def probe_all_ok_queue_exceeded : ProbeData :=
  { probe_all_ok_queue_error with mail_queue_raw := .ok 150 }

/-- A configuration file that is present and has a `thresholds` section,
but the section omits three of its four keys. -/
def sparse_thresholds_config : MonitorConfigFile :=
  { check_interval := none, webhook_url := none, alert_email := none,
    thresholds :=
      some { disk_usage := some 95, memory_usage := none,
             load_average := none, queue_size := none },
    services := none, ports := none, test_accounts := none }

/-- The partial-failure scenario of the spec: 3 domains with 3 accounts
each, where the fifth account-creation call (global index 4) raises and
every other stage succeeds. -/
def env_one_account_failure : PipelineEnv :=
  { domains := ["a.test", "b.test", "c.test"], emails_per_domain := 3,
    provision_result := .ok "198.51.100.7",
    dns_result := .ok (), connect_result := .ok (),
    cloud_init_result := .ok (), postfix_result := .ok (),
    dovecot_result := .ok (), ssl_result := .ok (), db_result := .ok (),
    account_result := fun i =>
      if i = 4 then .error "account creation failed"
      else .ok { email := "user" ++ toString i ++ "@d", domain := "d" },
    tests_result := .ok [], report_result := .ok "report_dir" }

/-- A run in which the Postfix configuration action raises and everything
else would succeed. -/
def env_postfix_fails : PipelineEnv :=
  { domains := ["a.test"], emails_per_domain := 1,
    provision_result := .ok "198.51.100.7",
    dns_result := .ok (), connect_result := .ok (),
    cloud_init_result := .ok (),
    postfix_result := .error "postfix restart failed",
    dovecot_result := .ok (), ssl_result := .ok (), db_result := .ok (),
    account_result := fun _ => .ok { email := "u@a.test", domain := "a.test" },
    tests_result := .ok [], report_result := .ok "report_dir" }

lemma wait_for_cloud_init_false (fuel : Nat) :
    ∀ iter, wait_for_cloud_init (fun _ => false) iter fuel = none := by
  induction fuel with
  | zero => intro iter; rfl
  | succ n ih =>
    intro iter
    simp only [wait_for_cloud_init, Bool.false_eq_true, if_false]
    exact ih (iter + 1)

lemma wait_for_droplet_ready_none (fuel : Nat) :
    ∀ iter, wait_for_droplet_ready (fun _ => none) iter fuel = none := by
  induction fuel with
  | zero => intro iter; rfl
  | succ n ih =>
    intro iter
    simp only [wait_for_droplet_ready]
    exact ih (iter + 1)

lemma wait_for_ssh_always_fail_aux (timeout : Nat) (k : Nat) :
    ∀ elapsed, timeout - elapsed ≤ k →
      (wait_for_ssh (fun _ => false) timeout elapsed).1 = false ∧
      timeout ≤ (wait_for_ssh (fun _ => false) timeout elapsed).2 := by
  induction k with
  | zero =>
    intro elapsed hk
    rw [wait_for_ssh]
    have hge : ¬ elapsed < timeout := by omega
    rw [dif_neg hge]
    exact ⟨rfl, by omega⟩
  | succ n ih =>
    intro elapsed hk
    rw [wait_for_ssh]
    by_cases hlt : elapsed < timeout
    · simp only [hlt, dif_pos, Bool.false_eq_true, if_false]
      exact ih (elapsed + 10) (by omega)
    · rw [dif_neg hlt]
      exact ⟨rfl, by omega⟩

lemma wait_for_ssh_always_fail (timeout : Nat) :
    (wait_for_ssh (fun _ => false) timeout 0).1 = false ∧
      timeout ≤ (wait_for_ssh (fun _ => false) timeout 0).2 :=
  wait_for_ssh_always_fail_aux timeout timeout 0 (by omega)

lemma setup_mail_server_err (env : PipelineEnv)
    (h : (∃ e, env.postfix_result = .error e) ∨
      (∃ e, env.dovecot_result = .error e) ∨
      (∃ e, env.ssl_result = .error e) ∨
      (∃ e, env.db_result = .error e)) :
    ∃ e2, setup_mail_server env = .error e2 := by
  obtain ⟨e, he⟩ | ⟨e, he⟩ | ⟨e, he⟩ | ⟨e, he⟩ := h <;>
  · simp only [setup_mail_server]
    repeat' split
    all_goals first
      | exact ⟨_, rfl⟩
      | exact ⟨e, he⟩
      | simp_all

lemma check_conflicts_eq_nil_iff (l : List MXRecord) :
    check_conflicts l = [] ↔
      ∀ mx ∈ l, matches_conflict_signature mx = false := by
  simp only [check_conflicts, matches_conflict_signature, List.append_eq_nil,
    List.map_eq_nil_iff, List.filter_eq_nil_iff]
  constructor
  · intro h mx hmx
    have h1 := h.1.1 mx hmx
    have h2 := h.1.2 mx hmx
    have h3 := h.2 mx hmx
    simp_all
  · intro h
    refine ⟨⟨fun mx hmx => ?_, fun mx hmx => ?_⟩, fun mx hmx => ?_⟩ <;>
      (have hx := h mx hmx; simp_all)

/-- C2: the claim says every wait of the pipeline is timeout-bounded, in
particular the wait for the host's first-boot completion marker.  This is
false: `wait_for_cloud_init` is a `while True:` loop with no timeout, so
with a marker that never appears the loop never exits, for any number of
iterations. -/
theorem c2_counterexample :
    ¬ cloud_init_wait_terminates (fun _ => false) := by
  rintro ⟨fuel, h⟩
  rw [wait_for_cloud_init_false] at h
  simp at h

/-- C2 amended: the SSH wait is timeout-bounded — with an always-failing
connection predicate it returns failure with at least `timeout` seconds
elapsed — but the cloud-init wait and the droplet-ready wait poll without
any timeout: with a never-true predicate neither loop ever exits. -/
theorem c2_amended :
    (∀ timeout : Nat,
      (wait_for_ssh (fun _ => false) timeout 0).1 = false ∧
      timeout ≤ (wait_for_ssh (fun _ => false) timeout 0).2) ∧
    ¬ cloud_init_wait_terminates (fun _ => false) ∧
    ¬ droplet_wait_terminates (fun _ => none) := by
  refine ⟨wait_for_ssh_always_fail, ?_, ?_⟩
  · rintro ⟨fuel, h⟩
    rw [wait_for_cloud_init_false] at h
    simp at h
  · rintro ⟨fuel, h⟩
    rw [wait_for_droplet_ready_none] at h
    simp at h

/-- C4: the severity of a monitoring cycle is a pure function of that
cycle's own alert count — 0 alerts is healthy, 1 or 2 is warning, 3 or
more is critical — and the previous cycle's alerts (cleared at the top of
the loop body) never influence it. -/
theorem c4_severity_classification (cfg : MonitorConfig) (d : ProbeData)
    (prev : List String) :
    (monitoring_cycle cfg d prev).1 =
      (if (run_health_check_alerts cfg d).length = 0 then HealthStatus.healthy
       else if (run_health_check_alerts cfg d).length ≤ 2 then
         HealthStatus.warning
       else HealthStatus.critical) := by
  simp only [monitoring_cycle, run_health_check, overall_status,
    List.nil_append]
  cases hl : run_health_check_alerts cfg d with
  | nil => simp
  | cons a t => simp [List.isEmpty]

/-- C9: the SSH session is released on every exit path of
`run_full_automation`: whatever each stage's outcome, the `finally`
branch runs `cleanup_ssh` and the returned state has no open session. -/
theorem c9_ssh_released_on_every_exit_path (env : PipelineEnv) :
    (run_full_automation env).ssh_open = false := by
  simp only [run_full_automation]

/-- C3: a failure of any remote configuration action of the mail-server
stage (Postfix, Dovecot, certificate issuance, database schema) propagates
out of `setup_mail_server`, aborting the job with `success = False` before
account creation, testing or reporting run. -/
theorem c3_mail_server_failure_aborts (env : PipelineEnv) (e : String)
    (h : env.postfix_result = .error e ∨ env.dovecot_result = .error e ∨
      env.ssl_result = .error e ∨ env.db_result = .error e) :
    (run_full_automation env).success = false ∧
    (run_full_automation env).report_generated = false ∧
    (run_full_automation env).email_accounts = [] := by
  obtain ⟨e2, hs⟩ := setup_mail_server_err env (by
    rcases h with h | h | h | h
    · exact Or.inl ⟨e, h⟩
    · exact Or.inr (Or.inl ⟨e, h⟩)
    · exact Or.inr (Or.inr (Or.inl ⟨e, h⟩))
    · exact Or.inr (Or.inr (Or.inr ⟨e, h⟩)))
  simp only [run_full_automation]
  cases hp : env.provision_result with
  | error e3 => simp
  | ok ip =>
    cases hd : env.dns_result with
    | error e3 => simp
    | ok _ => simp [hs]

/-- C3 witness: a run whose Postfix action raises ends with
`success = False`, no report and no accounts. -/
theorem c3_mail_server_failure_aborts_witness :
    (run_full_automation env_postfix_fails).success = false ∧
    (run_full_automation env_postfix_fails).report_generated = false ∧
    (run_full_automation env_postfix_fails).email_accounts = [] :=
  c3_mail_server_failure_aborts env_postfix_fails "postfix restart failed"
    (Or.inl rfl)

/-- C1 counterexample: in the 3-domains-by-3-accounts scenario with the
fifth creation call raising, the claim predicts a `Reported` (successful)
job with 8 recorded accounts; the code instead aborts the run, which ends
unsuccessfully with only the 4 accounts created before the failure. -/
theorem c1_counterexample :
    ¬ ((run_full_automation env_one_account_failure).success = true ∧
       (run_full_automation env_one_account_failure).email_accounts.length
         = 8) := by
  decide

/-- C1 amended: a single account-creation failure does not get recorded
per-account; it aborts the remaining account creation and the whole job,
which ends with `success = False` (never `Reported`) and with exactly the
accounts created before the failing call recorded. -/
theorem c1_amended_single_failure_aborts (env : PipelineEnv) (ip : String)
    (e : String) (k : Nat)
    (hprov : env.provision_result = .ok ip)
    (hdns : env.dns_result = .ok ())
    (hsetup : setup_mail_server env = .ok ())
    (hk : k < env.domains.length * env.emails_per_domain)
    (hok : ∀ i, i < k → ∃ a, env.account_result i = .ok a)
    (herr : env.account_result k = .error e) :
    (run_full_automation env).success = false ∧
    (run_full_automation env).report_generated = false ∧
    (run_full_automation env).email_accounts.length = k := by
  obtain ⟨as, heq, hlen⟩ := create_email_accounts_go_err env.account_result
    env.emails_per_domain e env.domains k 0 [] hk
    (by simpa using hok) (by simpa using herr)
  simp only [run_full_automation, hprov, hdns, hsetup,
    create_email_accounts, heq]
  simpa using hlen

/-- C1 amended witness: the concrete scenario, with the failing call at
global index 4, ends unsuccessfully with exactly 4 recorded accounts. -/
theorem c1_amended_single_failure_aborts_witness :
    (run_full_automation env_one_account_failure).success = false ∧
    (run_full_automation env_one_account_failure).report_generated = false ∧
    (run_full_automation env_one_account_failure).email_accounts.length
      = 4 :=
  c1_amended_single_failure_aborts env_one_account_failure "198.51.100.7"
    "account creation failed" 4 rfl rfl rfl (by decide)
    (by intro i hi; interval_cases i <;> exact ⟨_, rfl⟩) rfl

/-- C5: any snapshot write that brings the report count past 100 leaves
exactly 100 files, and every deleted file is at least as old as every
retained one (the oldest are the ones deleted). -/
theorem c5_retention (existing : List Nat) (newTs : Nat)
    (h : 100 < (existing ++ [newTs]).length) :
    (save_status_report existing newTs).length = 100 ∧
    ∀ x ∈ (List.insertionSort (· ≤ ·) (existing ++ [newTs])).take
        ((existing ++ [newTs]).length - 100),
      ∀ y ∈ save_status_report existing newTs, x ≤ y := by
  have hperm := List.perm_insertionSort (· ≤ ·) (existing ++ [newTs])
  have hlen : (List.insertionSort (· ≤ ·) (existing ++ [newTs])).length
      = (existing ++ [newTs]).length := hperm.length_eq
  have hsorted : (List.insertionSort (· ≤ ·)
      (existing ++ [newTs])).Sorted (· ≤ ·) :=
    List.sorted_insertionSort (· ≤ ·) (existing ++ [newTs])
  have hcond : 100 < (List.insertionSort (· ≤ ·)
      (existing ++ [newTs])).length := by omega
  have hsave : save_status_report existing newTs =
      (List.insertionSort (· ≤ ·) (existing ++ [newTs])).drop
        ((List.insertionSort (· ≤ ·) (existing ++ [newTs])).length - 100) := by
    simp only [save_status_report, hcond, if_pos]
  constructor
  · rw [hsave, List.length_drop]
    omega
  · intro x hx y hy
    rw [hsave] at hy
    have hpair : (List.insertionSort (· ≤ ·)
        (existing ++ [newTs])).Pairwise (· ≤ ·) := hsorted
    rw [← List.take_append_drop
      ((List.insertionSort (· ≤ ·) (existing ++ [newTs])).length - 100)
      (List.insertionSort (· ≤ ·) (existing ++ [newTs]))] at hpair
    have hrel := (List.pairwise_append.mp hpair).2.2
    rw [← hlen] at hx
    exact hrel x hx y hy

/-- C5 witness: writing the 101st report (timestamps 0..99 on disk, new
timestamp 100) leaves exactly 100 files. -/
theorem c5_retention_witness :
    (save_status_report (List.range 100) 100).length = 100 :=
  (c5_retention (List.range 100) 100 (by simp)).1

/-- C6 counterexample: the claim says an erroring mail-queue probe
contributes to the alert count like an exceeded queue-depth threshold.
In fact the probe error is converted to `-1`, which never exceeds the
default threshold of 100, so the cycle with an erroring queue probe has
zero alerts, while a genuine breach of the same threshold records one. -/
theorem c6_counterexample :
    check_mail_queue (Except.error "postqueue timed out") = -1 ∧
    run_health_check_alerts monitor_config_defaults probe_all_ok_queue_error
      = [] ∧
    run_health_check_alerts monitor_config_defaults
      probe_all_ok_queue_exceeded = ["Large mail queue: 150 messages"] := by
  refine ⟨rfl, ?_, ?_⟩ <;> rfl

/-- C6 amended: a probe error in the mail-queue check is caught locally
and converted to the sentinel `-1`; the cycle continues, but whenever the
configured queue threshold is non-negative (the default is 100) the
erroring probe contributes no alert — the cycle's alerts are exactly those
of a run whose queue came back empty. -/
theorem c6_amended_queue_error_adds_no_alert (cfg : MonitorConfig)
    (d : ProbeData) (e : String)
    (hq : 0 ≤ cfg.thresholds.queue_size) :
    check_mail_queue (.error e) = -1 ∧
    run_health_check_alerts cfg { d with mail_queue_raw := .error e } =
      run_health_check_alerts cfg { d with mail_queue_raw := .ok 0 } := by
  refine ⟨rfl, ?_⟩
  simp only [run_health_check_alerts, check_mail_queue]
  have h1 : ¬ ((-1 : Int) > cfg.thresholds.queue_size) := by omega
  have h2 : ¬ ((0 : Int) > cfg.thresholds.queue_size) := by omega
  simp [h1, h2]

/-- C6 amended witness at the default configuration. -/
theorem c6_amended_queue_error_adds_no_alert_witness :
    check_mail_queue (Except.error "postqueue timed out") = -1 ∧
    run_health_check_alerts monitor_config_defaults
      { probe_all_ok_queue_error with
          mail_queue_raw := .error "postqueue timed out" } =
    run_health_check_alerts monitor_config_defaults
      { probe_all_ok_queue_error with mail_queue_raw := .ok 0 } :=
  c6_amended_queue_error_adds_no_alert monitor_config_defaults
    probe_all_ok_queue_error "postqueue timed out" (by decide)

/-- C7 counterexample: the claim says every component reacts to a missing
configuration file by generating a default document and exiting non-zero.
The monitor does neither: its `load_config` returns the in-memory default
configuration and the process continues. -/
theorem c7_counterexample :
    ¬ missing_file_generates_and_exits monitor_load_config := by
  rintro ⟨code, hcode, h⟩
  simp [monitor_load_config] at h

/-- C7 amended: only the orchestrator generates a default document and
exits non-zero (status 1) on a missing configuration file; the basic
configurator writes the default document but returns, so its process does
not exit non-zero from the load path; the monitor writes nothing and
continues with the in-memory defaults. -/
theorem c7_amended_only_orchestrator_exits :
    missing_file_generates_and_exits orchestrator_load_config ∧
    ¬ missing_file_generates_and_exits email_configurator_load_config ∧
    ¬ missing_file_generates_and_exits monitor_load_config ∧
    orchestrator_load_config none = .missingFile true (some 1) ∧
    email_configurator_load_config none = .missingFile true none ∧
    monitor_load_config none = .loaded default_monitor_config := by
  refine ⟨⟨1, by decide, rfl⟩, ?_, ?_, rfl, rfl, rfl⟩
  · rintro ⟨code, hcode, h⟩
    simp [email_configurator_load_config] at h
  · rintro ⟨code, hcode, h⟩
    simp [monitor_load_config] at h

/-- C8 counterexample: the claim says every missing key of a present
configuration file falls back to its default so that all threshold
lookups succeed.  The merge is only top-level: a file whose `thresholds`
section is present but omits `memory_usage`, `load_average` and
`queue_size` keeps the partial section, and the threshold lookups in
`run_health_check` hit a `KeyError`. -/
theorem c8_counterexample :
    health_check_lookups_ok (merge_with_defaults sparse_thresholds_config)
      = false := by
  rfl

/-- C8 amended: a missing top-level key falls back to its documented
default, so the health-check lookups succeed for every file whose
`thresholds` section is either absent or itself complete; keys nested
inside a present `thresholds` section are not defaulted. -/
theorem c8_amended_top_level_defaults (f : MonitorConfigFile)
    (h : ∀ t, f.thresholds = some t →
      t.disk_usage.isSome = true ∧ t.memory_usage.isSome = true ∧
      t.load_average.isSome = true ∧ t.queue_size.isSome = true) :
    health_check_lookups_ok (merge_with_defaults f) = true := by
  simp only [health_check_lookups_ok, merge_with_defaults]
  cases hth : f.thresholds with
  | none => simp [default_thresholds_file]
  | some t =>
    obtain ⟨h1, h2, h3, h4⟩ := h t hth
    simp [h1, h2, h3, h4]

/-- C8 amended witness: a file that omits the whole `thresholds` section
(and every other top-level key) gets the full defaults and all lookups
succeed. -/
theorem c8_amended_top_level_defaults_witness :
    health_check_lookups_ok (merge_with_defaults
      { check_interval := none, webhook_url := none, alert_email := none,
        thresholds := none, services := none, ports := none,
        test_accounts := some ["test@a.test"] }) = true :=
  c8_amended_top_level_defaults
    { check_interval := none, webhook_url := none, alert_email := none,
      thresholds := none, services := none, ports := none,
      test_accounts := some ["test@a.test"] }
    (by intro t ht; simp at ht)

/-- C10: the `needs_configuration` flag of the DNS analysis is true
exactly when the fetched MX record list is empty or at least one conflict
was detected, and a conflict is detected exactly when some fetched record
matches one of the three conflict signatures. -/
theorem c10_needs_configuration_iff (current_mx : List MXRecord)
    (provider : String) :
    ((analyze_dns current_mx provider).needs_configuration = true ↔
      current_mx = [] ∨ (analyze_dns current_mx provider).conflicts ≠ []) ∧
    ((analyze_dns current_mx provider).conflicts ≠ [] ↔
      ∃ mx ∈ current_mx, matches_conflict_signature mx = true) := by
  have hconf : (analyze_dns current_mx provider).conflicts
      = check_conflicts current_mx := rfl
  constructor
  · simp only [analyze_dns, has_conflicts, Bool.or_eq_true,
      decide_eq_true_eq]
    constructor
    · rintro (h | h)
      · exact Or.inl (List.length_eq_zero.mp h)
      · exact Or.inr (List.length_pos.mp h)
    · rintro (h | h)
      · exact Or.inl (by simp [h])
      · exact Or.inr (List.length_pos.mpr h)
  · rw [hconf]
    constructor
    · intro h
      by_contra hnone
      push_neg at hnone
      have : ∀ mx ∈ current_mx, matches_conflict_signature mx = false := by
        intro mx hmx
        have := hnone mx hmx
        simpa using this
      exact h ((check_conflicts_eq_nil_iff current_mx).mpr this)
    · rintro ⟨mx, hmx, hsig⟩ hnil
      have := (check_conflicts_eq_nil_iff current_mx).mp hnil mx hmx
      rw [this] at hsig
      exact Bool.false_ne_true hsig
